import Mathlib

set_option maxHeartbeats 1000000

/-!
Verification development for the dcos-metrics port-allocation subsystem.

The embedding below follows the sources:
* `src/slave/input_assigner_factory.cpp` — the `InputAssignerFactory::get`
  singleton factory (the global handle, the mode switch, the fatal branch);
* `src/config.go` — `getNewConfig`, `Config.loadConfig`, `Config.getNodeInfo`.

Code of the repository that is not under `src/` (the `params` helpers and the
port-assignment strategy implementations) is modelled from the specification;
each such definition carries a doc comment beginning `Modelled from the spec:`.
-/

/-- The closed port-mode enumeration of the data model: SINGLE, EPHEMERAL,
RANGE and the sentinel UNKNOWN for unparseable configuration. -/
inductive PortMode
  | SINGLE
  | EPHEMERAL
  | RANGE
  | UNKNOWN
deriving DecidableEq, Repr

/-- Embedding of `mesos::Parameters`: a key/value parameter set, embedded as the list of its
(key, value) pairs in order. -/
structure Parameters where
  pairs : List (String × String)
deriving DecidableEq, Repr

/-- The configuration key for the listen-port mode, as used by
`InputAssignerFactory::get` via `params::LISTEN_PORT_MODE`. -/
def params.LISTEN_PORT_MODE : String := "listen_port_mode"

/-- Modelled from the spec: `params::LISTEN_PORT_MODE_DEFAULT` lives in the
`params` module, which is not under `src/`. The spec requires the documented
default to be one of the recognized mode literals; the single-port literal is
used here. -/
def params.LISTEN_PORT_MODE_DEFAULT : String := "single"

/-- Modelled from the spec: `params::get_str` lives in the `params` module,
which is not under `src/`. Per §6 of the spec, a key/value parameter set is
consulted for the key; a missing key falls back to the supplied default and
unknown keys are ignored. The value of the first pair whose key matches is
returned. -/
def params.get_str (p : Parameters) (key default_value : String) : String :=
  match p.pairs.find? (fun kv => kv.1 = key) with
  | some kv => kv.2
  | none => default_value

/-- Modelled from the spec: `params::to_port_mode` lives in the `params`
module, which is not under `src/`. Per §4.2 it is a pure total function
mapping recognized literals to their modes and every other string to
UNKNOWN. -/
def params.to_port_mode (s : String) : PortMode :=
  if s = "single" then PortMode.SINGLE
  else if s = "ephemeral" then PortMode.EPHEMERAL
  else if s = "range" then PortMode.RANGE
  else PortMode.UNKNOWN

/-- The strategy implementation object built by the factory's switch:
`SinglePortAssignerImpl`, `EphemeralPortAssignerImpl` or
`PortRangeAssignerImpl`, each constructed from the supplied parameters. -/
inductive InputAssignerImpl
  | single (parameters : Parameters)
  | ephemeral (parameters : Parameters)
  | range (parameters : Parameters)
deriving DecidableEq, Repr

/-- The mode tag of a strategy implementation. -/
def InputAssignerImpl.kind : InputAssignerImpl → PortMode
  | .single _ => PortMode.SINGLE
  | .ephemeral _ => PortMode.EPHEMERAL
  | .range _ => PortMode.RANGE

/-- Embedding of `stats::InputAssigner`: the façade wrapping one strategy implementation
(`new InputAssigner(impl)` in the factory). -/
structure InputAssigner where
  impl : InputAssignerImpl
deriving DecidableEq, Repr

/-- Outcome of one `InputAssignerFactory::get` call: either a normal return
carrying the returned shared handle and the global-handle state after the
call, or `LOG(FATAL)` termination carrying the fatal message (the process
aborts; nothing is stored or returned). -/
inductive GetResult
  | ok (assigner : InputAssigner) (global : Option InputAssigner)
  | fatal (msg : String)
deriving DecidableEq, Repr

/-- The mode tag of the strategy held by a normal factory result. -/
def GetResult.strategyKind : GetResult → Option PortMode
  | .ok a _ => some a.impl.kind
  | .fatal _ => none

/-- Embedding of `stats::InputAssignerFactory::get` from
`src/slave/input_assigner_factory.cpp`, as a transition on the anonymous
namespace global `global_assigner` (the whole body runs under
`global_assigner_mutex`, so one call is one atomic transition). If the global
is already set it is returned unchanged and the parameters are ignored.
Otherwise the port mode is parsed from the parameters; SINGLE, EPHEMERAL and
RANGE build the matching impl, wrap it in an `InputAssigner`, store it in the
global and return it; UNKNOWN hits `LOG(FATAL)`. -/
def InputAssignerFactory.get (parameters : Parameters)
    (global_assigner : Option InputAssigner) : GetResult :=
  match global_assigner with
  | some a => GetResult.ok a (some a)
  | none =>
    let port_mode_str :=
      params.get_str parameters params.LISTEN_PORT_MODE params.LISTEN_PORT_MODE_DEFAULT
    match params.to_port_mode port_mode_str with
    | PortMode.SINGLE =>
        let a : InputAssigner := ⟨InputAssignerImpl.single parameters⟩
        GetResult.ok a (some a)
    | PortMode.EPHEMERAL =>
        let a : InputAssigner := ⟨InputAssignerImpl.ephemeral parameters⟩
        GetResult.ok a (some a)
    | PortMode.RANGE =>
        let a : InputAssigner := ⟨InputAssignerImpl.range parameters⟩
        GetResult.ok a (some a)
    | PortMode.UNKNOWN =>
        GetResult.fatal
          ("Unknown " ++ params.LISTEN_PORT_MODE ++ " config value: " ++ port_mode_str)

/-- Running a sequence of `get` calls against the global handle, in the
serialization order imposed by `global_assigner_mutex`. A fatal call aborts
the process, so no later call runs: the trace stops at the fatal outcome and
the global handle is left as it was. -/
def runGets : Option InputAssigner → List Parameters → List GetResult × Option InputAssigner
  | st, [] => ([], st)
  | st, p :: ps =>
    match InputAssignerFactory.get p st with
    | GetResult.ok a st' =>
        let rest := runGets st' ps
        (GetResult.ok a st' :: rest.1, rest.2)
    | GetResult.fatal m => ([GetResult.fatal m], st)

/-- Number of assignments to the global handle performed while running a
sequence of `get` calls: `global_assigner.reset(...)` runs exactly on the
construction path, i.e. when the handle was unset and the call returns
normally. -/
def assignCount : Option InputAssigner → List Parameters → Nat
  | _, [] => 0
  | some a, p :: ps =>
    match InputAssignerFactory.get p (some a) with
    | GetResult.ok _ st' => assignCount st' ps
    | GetResult.fatal _ => 0
  | none, p :: ps =>
    match InputAssignerFactory.get p none with
    | GetResult.ok _ st' => 1 + assignCount st' ps
    | GetResult.fatal _ => 0

/-- Concrete parameter set selecting the single-port mode. -/
def pSingle : Parameters := ⟨[("listen_port_mode", "single")]⟩

/-- Concrete parameter set selecting the ephemeral mode. -/
def pEphemeral : Parameters := ⟨[("listen_port_mode", "ephemeral")]⟩

/-- Concrete parameter set selecting the range mode. -/
def pRange : Parameters := ⟨[("listen_port_mode", "range")]⟩

/-- Concrete parameter set with the unrecognized mode string of the spec's
failure scenario. -/
def pBogus : Parameters := ⟨[("listen_port_mode", "bogus")]⟩

/-- Concrete parameter set with no listen-port-mode key, only a key unknown
to the factory. -/
def pNoMode : Parameters := ⟨[("some_unknown_key", "whatever")]⟩

/-- Concrete empty parameter set. -/
def pEmpty : Parameters := ⟨[]⟩

/-- The recoverable error taxonomy of the assignment API (§7):
`PortUnavailable` when an offer/configuration lacks enough suitable ports,
`DuplicateAssignment` when a task re-assigns without an intervening
release. -/
inductive AssignError
  | PortUnavailable
  | DuplicateAssignment
deriving DecidableEq, Repr

/-- Modelled from the spec: the Range Strategy state (`PortRangeAssignerImpl`
is code of this repository that is not under `src/`). A configured closed
interval `[low, high]`, the current free set, and the Reservation Table
mapping each task identifier to its reserved set — the empty set for a task
holding no reservation. -/
structure PortRangeState where
  low : Nat
  high : Nat
  free : Finset Nat
  reserved : String → Finset Nat

/-- Modelled from the spec: at construction the free set is initialized to
the full configured interval and no task holds a reservation (§4.6). -/
def PortRangeState.init (low high : Nat) : PortRangeState :=
  { low := low, high := high, free := Finset.Icc low high, reserved := fun _ => ∅ }

/-- Modelled from the spec: Range Strategy `assign` (§4.6), under the
strategy's lock. A task already holding a reservation fails with
`DuplicateAssignment`; otherwise the candidates are the free set intersected
with the offered ports, picked lowest-first, one per declared requirement; a
shortage fails with `PortUnavailable` and makes no partial reservation; on
success the chosen ports move from the free set to the task's entry in the
Reservation Table, and the chosen ports are returned. -/
def PortRangeState.assign (st : PortRangeState) (taskId : String)
    (reqCount : Nat) (offer : Finset Nat) :
    Except AssignError (List Nat × PortRangeState) :=
  if st.reserved taskId ≠ ∅ then Except.error AssignError.DuplicateAssignment
  else if ((st.free ∩ offer).sort (· ≤ ·)).length < reqCount then
    Except.error AssignError.PortUnavailable
  else
    Except.ok (((st.free ∩ offer).sort (· ≤ ·)).take reqCount,
      { st with
          free := st.free \ (((st.free ∩ offer).sort (· ≤ ·)).take reqCount).toFinset,
          reserved := Function.update st.reserved taskId
            (((st.free ∩ offer).sort (· ≤ ·)).take reqCount).toFinset })

/-- Modelled from the spec: Range Strategy `release` (§4.6), under the lock.
The task's reserved ports move back into the free set and its Reservation
Table entry is cleared; for a task holding no reservation this is an
idempotent no-op. -/
def PortRangeState.release (st : PortRangeState) (taskId : String) : PortRangeState :=
  { st with
      free := st.free ∪ st.reserved taskId,
      reserved := Function.update st.reserved taskId ∅ }

/-- One operation of the Range Strategy's task-facing API: an `assign` for a
task with a number of declared requirements against a resource offer, or a
`release` of a task's reservations. -/
inductive RangeOp
  | assign (taskId : String) (reqCount : Nat) (offer : Finset Nat)
  | release (taskId : String)

/-- Applying one operation to the strategy state; a failed `assign` leaves
the state unchanged (atomic all-or-nothing). -/
def PortRangeState.step (st : PortRangeState) : RangeOp → PortRangeState
  | RangeOp.assign t n offer =>
      match st.assign t n offer with
      | Except.ok r => r.2
      | Except.error _ => st
  | RangeOp.release t => st.release t

/-- The state of the Range Strategy after running a sequence of operations
from the freshly constructed state for the interval `[low, high]`. -/
def PortRangeState.run (low high : Nat) (ops : List RangeOp) : PortRangeState :=
  ops.foldl PortRangeState.step (PortRangeState.init low high)

/-- The exact-partition invariant of the Reservation Table (§4.6): the free
set and every reserved set stay inside the configured interval (no port
outside the range is ever free or reserved), no port is simultaneously free
and reserved, reserved sets of distinct tasks are pairwise disjoint, and
every port of the interval is free or reserved for some task. -/
def PortRangeState.Partitions (st : PortRangeState) : Prop :=
  st.free ⊆ Finset.Icc st.low st.high ∧
  (∀ t, st.reserved t ⊆ Finset.Icc st.low st.high) ∧
  (∀ t, Disjoint st.free (st.reserved t)) ∧
  (∀ t u, t ≠ u → Disjoint (st.reserved t) (st.reserved u)) ∧
  (∀ p ∈ Finset.Icc st.low st.high, p ∈ st.free ∨ ∃ t, p ∈ st.reserved t)

/-- The NodeInfo block inside a collector, filled in by `Config.getNodeInfo`
in `src/config.go`: the detected IP address, the Mesos ID and the cluster ID.
Go zero values are empty strings, except a zero `net.IP`, which renders as
a nil marker when written with `ip.String()`. -/
structure NodeInfoFields where
  IPAddress : String
  MesosID : String
  ClusterID : String
deriving DecidableEq, Repr

/-- Embedding of `mesos_agent.MesosAgentCollector`, restricted to the fields `config.go`
touches (the HTTP client handle is modelled by the environment's
`metricsClientOk`). -/
structure MesosAgentCollector where
  PollPeriod : Nat
  Port : Nat
  NodeInfo : NodeInfoFields
deriving DecidableEq, Repr

/-- Embedding of `node.NodeCollector`, restricted to the fields `config.go`
touches. -/
structure NodeCollector where
  PollPeriod : Nat
  NodeInfo : NodeInfoFields
deriving DecidableEq, Repr

/-- Embedding of `CollectorConfig` from `src/config.go`. -/
structure CollectorConfig where
  HTTPProfiler : Bool
  Node : NodeCollector
  MesosAgent : MesosAgentCollector
deriving DecidableEq, Repr

/-- Embedding of `httpProducer.Config`, restricted to its port. -/
structure HTTPProducerConfig where
  Port : Nat
deriving DecidableEq, Repr

/-- Embedding of `ProducersConfig` from `src/config.go`. -/
structure ProducersConfig where
  HTTPProducerConfig : HTTPProducerConfig
deriving DecidableEq, Repr

/-- Embedding of `Config` from `src/config.go`: the config-file section, the generated
node-info fields and the flag-configured fields. -/
structure Config where
  Collector : CollectorConfig
  Producers : ProducersConfig
  IAMConfigPath : String
  CACertificatePath : String
  VersionFlag : Bool
  MesosID : String
  IPAddress : String
  ClusterID : String
  DCOSRole : String
  ConfigPath : String
  LogLevel : String
deriving DecidableEq, Repr

/-- Embedding of `newConfig` from `src/config.go`: the default base configuration; fields
it does not list take their Go zero values. -/
def newConfig : Config :=
  { Collector :=
      { HTTPProfiler := true
        Node := { PollPeriod := 15, NodeInfo := ⟨"", "", ""⟩ }
        MesosAgent := { PollPeriod := 15, Port := 5051, NodeInfo := ⟨"", "", ""⟩ } }
    Producers := { HTTPProducerConfig := { Port := 8000 } }
    IAMConfigPath := ""
    CACertificatePath := ""
    VersionFlag := false
    MesosID := ""
    IPAddress := ""
    ClusterID := ""
    DCOSRole := ""
    ConfigPath := "dcos-metrics-config.yaml"
    LogLevel := "info" }

/-- The command-line flags registered by `Config.setFlags` in
`src/config.go`: `-config`, `-loglevel`, `-role` and `-version`; `none`
models a flag not supplied on the command line. -/
structure Flags where
  config : Option String
  loglevel : Option String
  role : Option String
  version : Option Bool
deriving DecidableEq, Repr

/-- Embedding of `Config.setFlags` followed by `flag.Parse` in
`src/config.go`: each flag
supplied on the command line overwrites its field; since each flag's default
is the field's current value, an absent flag leaves the field unchanged. -/
def Config.parseFlags (c : Config) (fs : Flags) : Config :=
  { c with
      ConfigPath := fs.config.getD c.ConfigPath
      LogLevel := fs.loglevel.getD c.LogLevel
      DCOSRole := fs.role.getD c.DCOSRole
      VersionFlag := fs.version.getD c.VersionFlag }

/-- A parsed YAML config document, at the granularity of the scalar fields
the claims concern. `yaml.Unmarshal(fileByte, &c)` overwrites exactly the
fields whose keys appear in the document and leaves absent fields at their
current values; struct fields without a yaml tag (`VersionFlag`, `DCOSRole`,
`ConfigPath`, `LogLevel`) are still unmarshalled by yaml.v2 under their
lowercased field names. -/
structure YamlDoc where
  iam_config_path : Option String
  ca_certificate_path : Option String
  loglevel : Option String
  dcosrole : Option String
  configpath : Option String
  versionflag : Option Bool
deriving DecidableEq, Repr

/-- Embedding of `Config.loadConfig` from `src/config.go`: reads the file at
`ConfigPath`
(an unreadable path returns the read error) and unmarshals the document over
the current configuration. The filesystem is the map from paths to parsed
documents. -/
def Config.loadConfig (c : Config) (files : String → Option YamlDoc) :
    Except String Config :=
  match files c.ConfigPath with
  | none => Except.error "ReadFile"
  | some d =>
      Except.ok { c with
        IAMConfigPath := d.iam_config_path.getD c.IAMConfigPath
        CACertificatePath := d.ca_certificate_path.getD c.CACertificatePath
        LogLevel := d.loglevel.getD c.LogLevel
        DCOSRole := d.dcosrole.getD c.DCOSRole
        ConfigPath := d.configpath.getD c.ConfigPath
        VersionFlag := d.versionflag.getD c.VersionFlag }

/-- The external collaborators consulted by `Config.getNodeInfo` in
`src/config.go`: whether `NewMetricsClient` succeeds, whether `NewNodeInfo`
succeeds (its failure is only logged), and the results of `DetectIP`,
`MesosID` and `ClusterID` — `none` models an error result, whereupon the Go
code keeps the zero value of the output variable. -/
structure NodeEnv where
  metricsClientOk : Bool
  newNodeInfoOk : Bool
  detectIP : Option String
  mesosID : Option String
  clusterID : Option String
deriving DecidableEq, Repr

/-- Go's `dcos.RoleMaster` constant. -/
def RoleMaster : String := "master"

/-- The string a zero-valued `net.IP` renders to via `ip.String()`. -/
def zeroIPString : String := "<nil>"

/-- Embedding of `Config.getNodeInfo` from `src/config.go`. A failed
`NewMetricsClient`
is returned as an error. A failed `NewNodeInfo` is only logged and the
function proceeds. The detected IP (the zero value when `DetectIP` errored,
which is only logged) is written into both collectors' NodeInfo, then the
Mesos ID (zero value on a logged error) likewise. When the role is master a
failed `ClusterID` lookup is returned as an error and a successful one is
written into the node collector's NodeInfo; every other role then returns
successfully. -/
def Config.getNodeInfo (c : Config) (env : NodeEnv) : Except String Config :=
  if env.metricsClientOk = false then Except.error "NewMetricsClient"
  else
    let ip := env.detectIP.getD zeroIPString
    let mid := env.mesosID.getD ""
    let c1 := { c with
      Collector := { c.Collector with
        MesosAgent := { c.Collector.MesosAgent with
          NodeInfo := { c.Collector.MesosAgent.NodeInfo with
            IPAddress := ip, MesosID := mid } }
        Node := { c.Collector.Node with
          NodeInfo := { c.Collector.Node.NodeInfo with
            IPAddress := ip, MesosID := mid } } } }
    if c1.DCOSRole = RoleMaster then
      match env.clusterID with
      | none => Except.error "ClusterID"
      | some cid =>
          Except.ok { c1 with
            Collector := { c1.Collector with
              Node := { c1.Collector.Node with
                NodeInfo := { c1.Collector.Node.NodeInfo with
                  ClusterID := cid } } } }
    else Except.ok c1

/-- Embedding of `getNewConfig` from `src/config.go`: builds the defaults,
parses the
command-line flags over them, loads the config file over the result — the
code's comment says flags override the file, but the unmarshal runs after
the flag parse — then fills in node info and finally constructs the
collector client from the same inputs as the earlier `NewMetricsClient`
call. -/
def getNewConfig (args : Flags) (files : String → Option YamlDoc)
    (env : NodeEnv) : Except String Config :=
  match (newConfig.parseFlags args).loadConfig files with
  | Except.error e => Except.error e
  | Except.ok c =>
      match c.getNodeInfo env with
      | Except.error e => Except.error e
      | Except.ok c =>
          if env.metricsClientOk = false then Except.error "NewMetricsClient"
          else Except.ok c

/-- Concrete flag set used by the witnesses: a config path, a log level, a
non-master role and the version flag. -/
def wFlags : Flags := ⟨some "/etc/conf.yaml", some "debug", some "agent", some true⟩

/-- Concrete YAML document used by the witnesses: it sets the same fields the
flags set, to different values. -/
def wDoc : YamlDoc :=
  ⟨none, none, some "error", some "slave", some "/overridden.yaml", some false⟩

/-- Concrete filesystem used by the witnesses: every path holds `wDoc`. -/
def wFiles : String → Option YamlDoc := fun _ => some wDoc

/-- Concrete environment used by the witnesses: every collaborator
succeeds. -/
def wEnv : NodeEnv := ⟨true, true, some "10.0.0.1", some "mesos-id-1", some "cluster-id-1"⟩

/-- The configuration produced by `getNewConfig` on the witness inputs: the
file's loglevel, role and version values override the flags' values, and the
node info is written into both collectors. -/
def wConfig : Config :=
  { Collector :=
      { HTTPProfiler := true
        Node := { PollPeriod := 15, NodeInfo := ⟨"10.0.0.1", "mesos-id-1", ""⟩ }
        MesosAgent := { PollPeriod := 15, Port := 5051,
                        NodeInfo := ⟨"10.0.0.1", "mesos-id-1", ""⟩ } }
    Producers := { HTTPProducerConfig := { Port := 8000 } }
    IAMConfigPath := ""
    CACertificatePath := ""
    VersionFlag := false
    MesosID := ""
    IPAddress := ""
    ClusterID := ""
    DCOSRole := "slave"
    ConfigPath := "/overridden.yaml"
    LogLevel := "error" }

/-! ## Factory theorems -/

/-- C1: once an assigner is stored in the global handle, any later `get`
call, with any parameters, returns exactly the stored instance and leaves the
handle unchanged; the parameters have no effect on the result or the state. -/
theorem getReusesStoredAssigner (p : Parameters) (a : InputAssigner) :
    InputAssignerFactory.get p (some a) = GetResult.ok a (some a) := by
  rfl

/-- Helper: a normal return of `get` leaves the global handle equal to `some`
of the returned assigner. -/
theorem get_ok_global (p : Parameters) (st : Option InputAssigner)
    (a : InputAssigner) (st' : Option InputAssigner)
    (h : InputAssignerFactory.get p st = GetResult.ok a st') :
    st' = some a := by
  cases st <;> simp only [InputAssignerFactory.get] at h
  case some b =>
    injection h with h1 h2
    rw [← h2, h1]
  case none =>
    split at h <;>
      first
        | (injection h with h1 h2
           rw [← h2, h1])
        | injection h

/-- C10: whenever `get` returns normally, the returned assigner is exactly the
one stored in the global handle after the call: the handle is set (never the
null `none`) and holds the returned instance. -/
theorem getOkReturnsStoredHandle (p : Parameters) (st : Option InputAssigner)
    (a : InputAssigner) (st' : Option InputAssigner)
    (h : InputAssignerFactory.get p st = GetResult.ok a st') :
    st' = some a :=
  get_ok_global p st a st' h

/-- C10 witness at a concrete input: a first call with single mode. -/
theorem getOkReturnsStoredHandleWitness :
    some (InputAssigner.mk (InputAssignerImpl.single (Parameters.mk [("listen_port_mode", "single")]))) =
      some (InputAssigner.mk (InputAssignerImpl.single (Parameters.mk [("listen_port_mode", "single")]))) :=
  getOkReturnsStoredHandle (Parameters.mk [("listen_port_mode", "single")]) none
    (InputAssigner.mk (InputAssignerImpl.single (Parameters.mk [("listen_port_mode", "single")])))
    (some (InputAssigner.mk (InputAssignerImpl.single (Parameters.mk [("listen_port_mode", "single")]))))
    (by rfl)

/-- C2: a call to `get` terminates fatally exactly when the global handle is
unset and the configured port mode parses to the UNKNOWN sentinel. The fatal
outcome carries only the diagnostic message — no Input Assigner is
constructed, stored or returned — and it is the only fatal condition: a reuse
call never aborts, and a first call with a recognized mode never takes the
fatal branch. -/
theorem getFatalIffUnknownMode (p : Parameters) (st : Option InputAssigner) :
    (∃ m, InputAssignerFactory.get p st = GetResult.fatal m) ↔
      (st = none ∧
        params.to_port_mode
            (params.get_str p params.LISTEN_PORT_MODE params.LISTEN_PORT_MODE_DEFAULT) =
          PortMode.UNKNOWN) := by
  cases st
  case some a => simp [InputAssignerFactory.get]
  case none =>
    simp only [InputAssignerFactory.get]
    cases params.to_port_mode
        (params.get_str p params.LISTEN_PORT_MODE params.LISTEN_PORT_MODE_DEFAULT) <;>
      simp

/-- C2 witness: the spec's failure scenario, the unrecognized mode string
"bogus" on a first call, produces a fatal outcome. -/
theorem getFatalIffUnknownModeWitness :
    ∃ m, InputAssignerFactory.get pBogus none = GetResult.fatal m :=
  (getFatalIffUnknownMode pBogus none).mpr ⟨rfl, by decide⟩

/-- C3: a first call (global handle unset) whose configuration parses to
SINGLE, EPHEMERAL or RANGE constructs exactly the matching strategy
implementation, wraps it in an `InputAssigner`, stores that assigner in the
global handle and returns the stored handle. -/
theorem getFirstCallConstructsMatchingStrategy (p : Parameters) :
    (params.to_port_mode
          (params.get_str p params.LISTEN_PORT_MODE params.LISTEN_PORT_MODE_DEFAULT) =
        PortMode.SINGLE →
      InputAssignerFactory.get p none =
        GetResult.ok ⟨InputAssignerImpl.single p⟩ (some ⟨InputAssignerImpl.single p⟩)) ∧
    (params.to_port_mode
          (params.get_str p params.LISTEN_PORT_MODE params.LISTEN_PORT_MODE_DEFAULT) =
        PortMode.EPHEMERAL →
      InputAssignerFactory.get p none =
        GetResult.ok ⟨InputAssignerImpl.ephemeral p⟩ (some ⟨InputAssignerImpl.ephemeral p⟩)) ∧
    (params.to_port_mode
          (params.get_str p params.LISTEN_PORT_MODE params.LISTEN_PORT_MODE_DEFAULT) =
        PortMode.RANGE →
      InputAssignerFactory.get p none =
        GetResult.ok ⟨InputAssignerImpl.range p⟩ (some ⟨InputAssignerImpl.range p⟩)) := by
  refine ⟨fun h => ?_, fun h => ?_, fun h => ?_⟩ <;>
    simp only [InputAssignerFactory.get] <;> rw [h]

/-- C3 witness: first calls with each of the three recognized mode literals
construct the matching strategy. -/
theorem getFirstCallConstructsMatchingStrategyWitness :
    InputAssignerFactory.get pSingle none =
      GetResult.ok ⟨InputAssignerImpl.single pSingle⟩
        (some ⟨InputAssignerImpl.single pSingle⟩) ∧
    InputAssignerFactory.get pEphemeral none =
      GetResult.ok ⟨InputAssignerImpl.ephemeral pEphemeral⟩
        (some ⟨InputAssignerImpl.ephemeral pEphemeral⟩) ∧
    InputAssignerFactory.get pRange none =
      GetResult.ok ⟨InputAssignerImpl.range pRange⟩
        (some ⟨InputAssignerImpl.range pRange⟩) :=
  ⟨(getFirstCallConstructsMatchingStrategy pSingle).1 (by decide),
   (getFirstCallConstructsMatchingStrategy pEphemeral).2.1 (by decide),
   (getFirstCallConstructsMatchingStrategy pRange).2.2 (by decide)⟩

/-- Helper: once the handle holds `a`, a run of any further calls returns `a`
every time and leaves the handle at `a`. -/
theorem runGets_some (a : InputAssigner) (ps : List Parameters) :
    runGets (some a) ps = (ps.map (fun _ => GetResult.ok a (some a)), some a) := by
  induction ps with
  | nil => rfl
  | cons p ps ih => simp [runGets, InputAssignerFactory.get, ih]

/-- Helper: once the handle is set, no further run performs any assignment. -/
theorem assignCount_some (a : InputAssigner) (ps : List Parameters) :
    assignCount (some a) ps = 0 := by
  induction ps with
  | nil => rfl
  | cons p ps ih => simp [assignCount, InputAssignerFactory.get, ih]

/-- Helper: any run of `get` calls assigns the global handle at most once. -/
theorem assignCount_le_one (ps : List Parameters) (st : Option InputAssigner) :
    assignCount st ps ≤ 1 := by
  cases ps with
  | nil => simp [assignCount]
  | cons p ps =>
    cases st with
    | some a =>
        rw [assignCount_some a (p :: ps)]
        omega
    | none =>
        unfold assignCount
        cases hg : InputAssignerFactory.get p none with
        | ok a st' =>
            have hst : st' = some a := get_ok_global p none a st' hg
            subst hst
            simp only [assignCount_some a ps]
            omega
        | fatal m => simp

/-- C4: the global handle, once set, is never destroyed and never replaced:
from a state holding assigner `a`, any run of further `get` calls returns `a`
from every call and ends with the handle still at `a`; and along any run of
`get` calls, at most one assignment to the global handle ever occurs. -/
theorem globalHandleSetOnce :
    (∀ (a : InputAssigner) (ps : List Parameters),
        runGets (some a) ps = (ps.map (fun _ => GetResult.ok a (some a)), some a)) ∧
    (∀ (st : Option InputAssigner) (ps : List Parameters), assignCount st ps ≤ 1) :=
  ⟨runGets_some, fun st ps => assignCount_le_one ps st⟩

/-- Helper: a first call with a recognized mode returns some assigner and
stores it. -/
theorem get_none_ok_of_known (p : Parameters)
    (h : params.to_port_mode
        (params.get_str p params.LISTEN_PORT_MODE params.LISTEN_PORT_MODE_DEFAULT) ≠
      PortMode.UNKNOWN) :
    ∃ a, InputAssignerFactory.get p none = GetResult.ok a (some a) := by
  simp only [InputAssignerFactory.get]
  cases hm : params.to_port_mode
      (params.get_str p params.LISTEN_PORT_MODE params.LISTEN_PORT_MODE_DEFAULT)
  case SINGLE => exact ⟨_, rfl⟩
  case EPHEMERAL => exact ⟨_, rfl⟩
  case RANGE => exact ⟨_, rfl⟩
  case UNKNOWN => exact absurd hm h

/-- C5: the whole check-and-construct sequence of `get` runs under
`global_assigner_mutex`, so each call is one atomic transition and concurrent
calls are serialized into a run; for any such run of first calls whose
opening configuration carries a recognized mode, exactly one assigner is
constructed (one assignment to the handle) and every call in the run observes
that single winner. -/
theorem concurrentFirstCallsOneWinner (p : Parameters) (ps : List Parameters)
    (h : params.to_port_mode
        (params.get_str p params.LISTEN_PORT_MODE params.LISTEN_PORT_MODE_DEFAULT) ≠
      PortMode.UNKNOWN) :
    ∃ a, runGets none (p :: ps) =
        (GetResult.ok a (some a) :: ps.map (fun _ => GetResult.ok a (some a)), some a) ∧
      assignCount none (p :: ps) = 1 := by
  obtain ⟨a, hg⟩ := get_none_ok_of_known p h
  refine ⟨a, ?_, ?_⟩
  · unfold runGets
    rw [hg]
    simp [runGets_some a ps]
  · unfold assignCount
    rw [hg]
    simp [assignCount_some a ps]

/-- C5 witness: a run of two serialized calls, the first with the single mode
and the second with a bogus mode, constructs exactly once and both calls
return the winner. -/
theorem concurrentFirstCallsOneWinnerWitness :
    ∃ a, runGets none (pSingle :: [pBogus]) =
        (GetResult.ok a (some a) :: [pBogus].map (fun _ => GetResult.ok a (some a)), some a) ∧
      assignCount none (pSingle :: [pBogus]) = 1 :=
  concurrentFirstCallsOneWinner pSingle [pBogus] (by decide)

/-- C6: a configuration without the listen-port-mode key falls back to the
documented default mode value, which parses to a recognized mode rather than
failing; and keys the factory does not consult have no effect on which
strategy a first call constructs: two configurations that agree on the
listen-port-mode lookup yield strategies of the same kind. -/
theorem missingModeKeyFallsBackToDefault (p q : Parameters) :
    (p.pairs.find? (fun kv => kv.1 = params.LISTEN_PORT_MODE) = none →
      params.get_str p params.LISTEN_PORT_MODE params.LISTEN_PORT_MODE_DEFAULT =
          params.LISTEN_PORT_MODE_DEFAULT ∧
        params.to_port_mode params.LISTEN_PORT_MODE_DEFAULT ≠ PortMode.UNKNOWN) ∧
    (p.pairs.find? (fun kv => kv.1 = params.LISTEN_PORT_MODE) =
        q.pairs.find? (fun kv => kv.1 = params.LISTEN_PORT_MODE) →
      (InputAssignerFactory.get p none).strategyKind =
        (InputAssignerFactory.get q none).strategyKind) := by
  constructor
  · intro h
    refine ⟨?_, by decide⟩
    simp [params.get_str, h]
  · intro h
    have hs : params.get_str p params.LISTEN_PORT_MODE params.LISTEN_PORT_MODE_DEFAULT =
        params.get_str q params.LISTEN_PORT_MODE params.LISTEN_PORT_MODE_DEFAULT := by
      unfold params.get_str
      rw [h]
    simp only [InputAssignerFactory.get, hs]
    cases params.to_port_mode
        (params.get_str q params.LISTEN_PORT_MODE params.LISTEN_PORT_MODE_DEFAULT) <;> rfl

/-- C6 witness: a parameter set holding only a key unknown to the factory
falls back to the default mode, and constructs the same strategy kind as the
empty parameter set. -/
theorem missingModeKeyFallsBackToDefaultWitness :
    (params.get_str pNoMode params.LISTEN_PORT_MODE params.LISTEN_PORT_MODE_DEFAULT =
        params.LISTEN_PORT_MODE_DEFAULT ∧
      params.to_port_mode params.LISTEN_PORT_MODE_DEFAULT ≠ PortMode.UNKNOWN) ∧
    (InputAssignerFactory.get pNoMode none).strategyKind =
      (InputAssignerFactory.get pEmpty none).strategyKind :=
  ⟨(missingModeKeyFallsBackToDefault pNoMode pEmpty).1 (by decide),
   (missingModeKeyFallsBackToDefault pNoMode pEmpty).2 (by decide)⟩

/-! ## Range Strategy theorems -/

/-- Helper: the ports chosen by `assign` all come from the free set
intersected with the offer. -/
theorem chosen_subset_free_inter (s offer : Finset Nat) (n : Nat) :
    (((s ∩ offer).sort (· ≤ ·)).take n).toFinset ⊆ s ∩ offer := by
  intro x hx
  rw [List.mem_toFinset] at hx
  exact (Finset.mem_sort (α := Nat) (· ≤ ·)).mp (List.take_subset n _ hx)

/-- Helper: the freshly constructed Range Strategy state satisfies the
partition invariant. -/
theorem partitions_init (low high : Nat) : (PortRangeState.init low high).Partitions := by
  refine ⟨Finset.Subset.refl _, fun t => Finset.empty_subset _,
    fun t => Finset.disjoint_empty_right _, fun t u _ => Finset.disjoint_empty_left _,
    fun p hp => Or.inl hp⟩

/-- Helper: one `assign` or `release` operation preserves the partition
invariant. -/
theorem partitions_step (st : PortRangeState) (op : RangeOp) (h : st.Partitions) :
    (st.step op).Partitions := by
  obtain ⟨hfree, hres, hdisj, hpair, hcover⟩ := h
  cases op with
  | release t =>
      simp only [PortRangeState.step, PortRangeState.release]
      refine ⟨?_, ?_, ?_, ?_, ?_⟩
      · exact Finset.union_subset hfree (hres t)
      · intro u
        rcases eq_or_ne u t with rfl | hut
        · simp [Function.update_same]
        · simp only [Function.update_noteq hut]
          exact hres u
      · intro u
        rcases eq_or_ne u t with rfl | hut
        · simp [Function.update_same]
        · simp only [Function.update_noteq hut]
          exact Finset.disjoint_union_left.mpr ⟨hdisj u, hpair t u (Ne.symm hut)⟩
      · intro u v huv
        rcases eq_or_ne u t with rfl | hut
        · simp [Function.update_same]
        · rcases eq_or_ne v t with rfl | hvt
          · simp [Function.update_same]
          · simp only [Function.update_noteq hut, Function.update_noteq hvt]
            exact hpair u v huv
      · intro p hp
        rcases hcover p hp with hpf | ⟨u, hu⟩
        · exact Or.inl (Finset.mem_union_left _ hpf)
        · rcases eq_or_ne u t with rfl | hut
          · exact Or.inl (Finset.mem_union_right _ hu)
          · refine Or.inr ⟨u, ?_⟩
            simp only [Function.update_noteq hut]
            exact hu
  | assign t n offer =>
      simp only [PortRangeState.step]
      cases ha : st.assign t n offer with
      | error e => exact ⟨hfree, hres, hdisj, hpair, hcover⟩
      | ok r =>
          unfold PortRangeState.assign at ha
          split at ha
          · exact absurd ha (by simp)
          · rename_i hne
            have hrest : st.reserved t = ∅ := not_not.mp hne
            split at ha
            · exact absurd ha (by simp)
            · injection ha with ha
              subst ha
              have hS : (((st.free ∩ offer).sort (· ≤ ·)).take n).toFinset ⊆
                  st.free ∩ offer := chosen_subset_free_inter st.free offer n
              have hSfree : (((st.free ∩ offer).sort (· ≤ ·)).take n).toFinset ⊆
                  st.free := hS.trans (Finset.inter_subset_left)
              refine ⟨?_, ?_, ?_, ?_, ?_⟩
              · exact fun x hx => hfree (Finset.mem_sdiff.mp hx).1
              · intro u
                rcases eq_or_ne u t with rfl | hut
                · simp only [Function.update_same]
                  exact hSfree.trans hfree
                · simp only [Function.update_noteq hut]
                  exact hres u
              · intro u
                rcases eq_or_ne u t with rfl | hut
                · simp only [Function.update_same]
                  exact Finset.sdiff_disjoint
                · simp only [Function.update_noteq hut]
                  exact Disjoint.mono_left (Finset.sdiff_subset) (hdisj u)
              · intro u v huv
                rcases eq_or_ne u t with rfl | hut
                · simp only [Function.update_same, Function.update_noteq (Ne.symm huv)]
                  exact Disjoint.mono_left hSfree (hdisj v)
                · rcases eq_or_ne v t with rfl | hvt
                  · simp only [Function.update_same, Function.update_noteq hut]
                    exact Disjoint.mono_right hSfree (hdisj u).symm
                  · simp only [Function.update_noteq hut, Function.update_noteq hvt]
                    exact hpair u v huv
              · intro p hp
                rcases hcover p hp with hpf | ⟨u, hu⟩
                · by_cases hps : p ∈ (((st.free ∩ offer).sort (· ≤ ·)).take n).toFinset
                  · refine Or.inr ⟨t, ?_⟩
                    simp only [Function.update_same]
                    exact hps
                  · exact Or.inl (Finset.mem_sdiff.mpr ⟨hpf, hps⟩)
                · have hut : u ≠ t := by
                    intro e
                    rw [e, hrest] at hu
                    exact absurd hu (Finset.not_mem_empty p)
                  refine Or.inr ⟨u, ?_⟩
                  simp only [Function.update_noteq hut]
                  exact hu

/-- Helper: the invariant is preserved along any fold of operations. -/
theorem partitions_foldl (ops : List RangeOp) (st : PortRangeState)
    (h : st.Partitions) : (ops.foldl PortRangeState.step st).Partitions := by
  induction ops generalizing st with
  | nil => exact h
  | cons op ops ih => exact ih _ (partitions_step st op h)

/-- C7: for every configured interval and every sequence of assign and
release operations of the Range Strategy, the state reached satisfies the
exact-partition invariant: the free set and the per-task reserved sets cover
the configured closed interval and nothing outside it, no port is
simultaneously free and reserved, and reserved sets of distinct tasks are
pairwise disjoint. -/
theorem rangePartitionInvariant (low high : Nat) (ops : List RangeOp) :
    (PortRangeState.run low high ops).Partitions :=
  partitions_foldl ops _ (partitions_init low high)

/-! ## Configuration-loading theorems -/

/-- Helper: a successful `getNodeInfo` does not touch the LogLevel, DCOSRole,
VersionFlag or ConfigPath fields. -/
theorem getNodeInfo_ok_preserves (c c' : Config) (env : NodeEnv)
    (h : c.getNodeInfo env = Except.ok c') :
    c'.LogLevel = c.LogLevel ∧ c'.DCOSRole = c.DCOSRole ∧
      c'.VersionFlag = c.VersionFlag ∧ c'.ConfigPath = c.ConfigPath := by
  unfold Config.getNodeInfo at h
  split at h
  · exact absurd h (by simp)
  · simp only [] at h
    split at h
    · split at h
      · exact absurd h (by simp)
      · injection h with h
        subst h
        exact ⟨rfl, rfl, rfl, rfl⟩
    · injection h with h
      subst h
      exact ⟨rfl, rfl, rfl, rfl⟩

/-- Helper: a successful `loadConfig` sets the flag-overlapping fields from
the document when present, keeping the current value otherwise. -/
theorem loadConfig_ok_fields (c : Config) (files : String → Option YamlDoc)
    (d : YamlDoc) (c' : Config) (hdoc : files c.ConfigPath = some d)
    (h : c.loadConfig files = Except.ok c') :
    c'.LogLevel = d.loglevel.getD c.LogLevel ∧
      c'.DCOSRole = d.dcosrole.getD c.DCOSRole ∧
      c'.VersionFlag = d.versionflag.getD c.VersionFlag ∧
      c'.ConfigPath = d.configpath.getD c.ConfigPath := by
  unfold Config.loadConfig at h
  rw [hdoc] at h
  injection h with h
  subst h
  exact ⟨rfl, rfl, rfl, rfl⟩

/-- Helper: a successful `getNewConfig` run decomposes into a successful
`loadConfig` over the flag-parsed defaults followed by a successful
`getNodeInfo`. -/
theorem getNewConfig_ok_decompose (args : Flags) (files : String → Option YamlDoc)
    (env : NodeEnv) (c : Config)
    (hok : getNewConfig args files env = Except.ok c) :
    ∃ cL, (newConfig.parseFlags args).loadConfig files = Except.ok cL ∧
      cL.getNodeInfo env = Except.ok c := by
  unfold getNewConfig at hok
  split at hok
  · exact absurd hok (by simp)
  · rename_i cL hL
    split at hok
    · exact absurd hok (by simp)
    · rename_i c2 hN
      split at hok
      · exact absurd hok (by simp)
      · injection hok with hok
        subst hok
        exact ⟨cL, hL, hN⟩

/-- C8: in `getNewConfig` the command-line flags are parsed before the YAML
config file is loaded, so every field supplied both by a flag and by an
entry of the config file ends up holding the config-file value, not the flag
value — the file overrides the flags, the reverse of the precedence the
code's own comment documents. Stated for every field both a flag and a
document entry can set: the log level, the DC/OS role, the version flag and
the config path. -/
theorem configFileOverridesFlags (args : Flags) (files : String → Option YamlDoc)
    (env : NodeEnv) (d : YamlDoc) (c : Config)
    (hdoc : files (newConfig.parseFlags args).ConfigPath = some d)
    (hok : getNewConfig args files env = Except.ok c) :
    (∀ v w, args.loglevel = some v → d.loglevel = some w → c.LogLevel = w) ∧
    (∀ v w, args.role = some v → d.dcosrole = some w → c.DCOSRole = w) ∧
    (∀ v w, args.version = some v → d.versionflag = some w → c.VersionFlag = w) ∧
    (∀ v w, args.config = some v → d.configpath = some w → c.ConfigPath = w) := by
  obtain ⟨cL, hL, hN⟩ := getNewConfig_ok_decompose args files env c hok
  obtain ⟨hl, hr, hv, hp⟩ := loadConfig_ok_fields _ files d cL hdoc hL
  obtain ⟨pl, pr, pv, pc⟩ := getNodeInfo_ok_preserves cL c env hN
  refine ⟨fun v w _ hw => ?_, fun v w _ hw => ?_, fun v w _ hw => ?_,
    fun v w _ hw => ?_⟩
  · rw [pl, hl, hw, Option.getD_some]
  · rw [pr, hr, hw, Option.getD_some]
  · rw [pv, hv, hw, Option.getD_some]
  · rw [pc, hp, hw, Option.getD_some]

/-- C8 witness: with the flags supplying loglevel "debug", role "agent",
version true and the config path "/etc/conf.yaml", and the config file
supplying loglevel "error", role "slave", version false and configpath
"/overridden.yaml", the returned configuration holds the file's values for
all four fields. -/
theorem configFileOverridesFlagsWitness :
    getNewConfig wFlags wFiles wEnv = Except.ok wConfig ∧
      wConfig.LogLevel = "error" ∧ wConfig.DCOSRole = "slave" ∧
      wConfig.VersionFlag = false ∧ wConfig.ConfigPath = "/overridden.yaml" :=
  ⟨rfl,
   (configFileOverridesFlags wFlags wFiles wEnv wDoc wConfig rfl rfl).1 "debug" "error"
     rfl rfl,
   (configFileOverridesFlags wFlags wFiles wEnv wDoc wConfig rfl rfl).2.1 "agent" "slave"
     rfl rfl,
   (configFileOverridesFlags wFlags wFiles wEnv wDoc wConfig rfl rfl).2.2.1 true false
     rfl rfl,
   (configFileOverridesFlags wFlags wFiles wEnv wDoc wConfig rfl rfl).2.2.2
     "/etc/conf.yaml" "/overridden.yaml" rfl rfl⟩

/-- C9: `getNodeInfo` returns an error exactly when the metrics client cannot
be constructed or when the DC/OS role is master and the ClusterID lookup
fails; failures of NodeInfo construction, IP detection and Mesos ID lookup
are only logged — the success path below does not depend on them — and on
the non-master path the call writes the (possibly zero-valued) IP address
and Mesos ID into both collectors' NodeInfo fields and returns
successfully. -/
theorem getNodeInfoErrorsOnlyClientOrMasterClusterID (c : Config) (env : NodeEnv) :
    ((∃ e, c.getNodeInfo env = Except.error e) ↔
      (env.metricsClientOk = false ∨
        (c.DCOSRole = RoleMaster ∧ env.clusterID = none))) ∧
    (env.metricsClientOk = true → c.DCOSRole ≠ RoleMaster →
      c.getNodeInfo env = Except.ok { c with
        Collector := { c.Collector with
          MesosAgent := { c.Collector.MesosAgent with
            NodeInfo := { c.Collector.MesosAgent.NodeInfo with
              IPAddress := env.detectIP.getD zeroIPString,
              MesosID := env.mesosID.getD "" } }
          Node := { c.Collector.Node with
            NodeInfo := { c.Collector.Node.NodeInfo with
              IPAddress := env.detectIP.getD zeroIPString,
              MesosID := env.mesosID.getD "" } } } }) := by
  cases hmc : env.metricsClientOk with
  | false =>
      refine ⟨?_, ?_⟩
      · simp [Config.getNodeInfo, hmc]
      · intro h
        exact absurd h (by simp)
  | true =>
      by_cases hrole : c.DCOSRole = RoleMaster
      · cases hcid : env.clusterID with
        | none =>
            refine ⟨?_, fun _ h => absurd hrole h⟩
            simp [Config.getNodeInfo, hmc, hrole, hcid]
        | some cid =>
            refine ⟨?_, fun _ h => absurd hrole h⟩
            simp [Config.getNodeInfo, hmc, hrole, hcid]
      · refine ⟨?_, fun _ _ => ?_⟩
        · simp [Config.getNodeInfo, hmc, hrole]
        · simp [Config.getNodeInfo, hmc, hrole]

/-- C9 witness: on the default configuration (role empty, hence not master)
with all collaborators succeeding, `getNodeInfo` writes the detected IP and
Mesos ID into both collectors and returns successfully. -/
theorem getNodeInfoErrorsWitness :
    newConfig.getNodeInfo wEnv = Except.ok { newConfig with
      Collector := { newConfig.Collector with
        MesosAgent := { newConfig.Collector.MesosAgent with
          NodeInfo := { newConfig.Collector.MesosAgent.NodeInfo with
            IPAddress := wEnv.detectIP.getD zeroIPString,
            MesosID := wEnv.mesosID.getD "" } }
        Node := { newConfig.Collector.Node with
          NodeInfo := { newConfig.Collector.Node.NodeInfo with
            IPAddress := wEnv.detectIP.getD zeroIPString,
            MesosID := wEnv.mesosID.getD "" } } } } :=
  (getNodeInfoErrorsOnlyClientOrMasterClusterID newConfig wEnv).2 rfl (by decide)
